import Mathlib

/-!
Verification of the yeti-python authenticated request pipeline
(src/yeti/api.py, src/yeti/errors.py).

The Python client is shallowly embedded as explicit state passing:
the HTTP transport is an oracle mapping the global attempt index and the
attempt descriptor to a response; mutually recursive methods
(do_request / refresh_auth / auth_api_key) are fueled, with fuel
exhaustion (result component none) modelling divergence or stack
overflow.  Every definition mirrors the corresponding source function.
-/

namespace Yeti

/-- JSON values, the payloads exchanged with the server.  `json.loads` on
response bytes is modelled as the identity: the oracle hands back the
already-structured value. -/
inductive Json where
  | null : Json
  | bool : Bool → Json
  | num : Int → Json
  | str : String → Json
  | arr : List Json → Json
  | obj : List (String × Json) → Json
deriving Repr

/-- First-match association lookup, as Python dict lookup on our
association-list model of dicts. -/
def alistGet {α : Type} (kvs : List (String × α)) (k : String) : Option α :=
  match kvs with
  | [] => none
  | (k0, v) :: rest => if k0 == k then some v else alistGet rest k

/-- Python `dict.get` on a JSON object; `none` on non-objects. -/
def Json.get (j : Json) (k : String) : Option Json :=
  match j with
  | .obj kvs => alistGet kvs k
  | _ => none

/-- Python truthiness of a JSON value (`if not access_token`). -/
def Json.falsy : Json → Bool
  | .null => true
  | .bool b => !b
  | .num n => n == 0
  | .str s => s.isEmpty
  | .arr xs => xs.isEmpty
  | .obj kvs => kvs.isEmpty

mutual

/-- Python `str()` of a JSON value, used for string interpolation of the
access token and of error messages (container rendering approximates
CPython's repr; no claim depends on it). -/
def Json.pyStr : Json → String
  | .null => "None"
  | .bool true => "True"
  | .bool false => "False"
  | .num n => toString n
  | .str s => s
  | .arr xs => "[" ++ Json.pyList xs ++ "]"
  | .obj kvs => "\x7b" ++ Json.pyFields kvs ++ "\x7d"

/-- Python `repr()` of a JSON value (inner rendering inside containers). -/
def Json.pyRepr : Json → String
  | .str s => "'" ++ s ++ "'"
  | .null => "None"
  | .bool true => "True"
  | .bool false => "False"
  | .num n => toString n
  | .arr xs => "[" ++ Json.pyList xs ++ "]"
  | .obj kvs => "\x7b" ++ Json.pyFields kvs ++ "\x7d"

/-- Comma-joined reprs of array elements. -/
def Json.pyList : List Json → String
  | [] => ""
  | [x] => Json.pyRepr x
  | x :: xs => Json.pyRepr x ++ ", " ++ Json.pyList xs

/-- Comma-joined reprs of object fields. -/
def Json.pyFields : List (String × Json) → String
  | [] => ""
  | [(k, v)] => "'" ++ k ++ "': " ++ Json.pyRepr v
  | (k, v) :: kvs => "'" ++ k ++ "': " ++ Json.pyRepr v ++ ", " ++ Json.pyFields kvs

end

/-- Truthiness of an optional string argument (None and "" are falsy). -/
def strTruthy : Option String → Bool
  | none => false
  | some s => !s.isEmpty

/-- Truthiness of an optional list argument (None and [] are falsy). -/
def listTruthy {α : Type} : Option (List α) → Bool
  | none => false
  | some xs => !xs.isEmpty

/-- Python falsiness of `dict.get`'s result: the key is absent or its
value is falsy (`if not access_token`). -/
def falsyOpt : Option Json → Bool
  | none => true
  | some j => j.falsy

/-- Lowercase hexadecimal digit characters. -/
def hexDigitLower (k : Nat) : Char :=
  if k < 10 then Char.ofNat (48 + k) else Char.ofNat (87 + k)

/-- Uppercase hexadecimal digit characters (percent-encoding). -/
def hexDigitUpper (k : Nat) : Char :=
  if k < 10 then Char.ofNat (48 + k) else Char.ofNat (55 + k)

/-- UTF-8 byte expansion of a character (pure arithmetic model). -/
def utf8Bytes (c : Char) : List Nat :=
  let n := c.toNat
  if n < 128 then [n]
  else if n < 2048 then [192 + n / 64, 128 + n % 64]
  else if n < 65536 then [224 + n / 4096, 128 + n / 64 % 64, 128 + n % 64]
  else [240 + n / 262144, 128 + n / 4096 % 64, 128 + n / 64 % 64, 128 + n % 64]

/-- `urllib.parse.quote_plus` on one character: unreserved characters kept,
space becomes a plus sign, everything else percent-encoded bytewise. -/
def quotePlusChar (c : Char) : String :=
  if c.isAlphanum || c == '_' || c == '.' || c == '-' || c == '~' then
    String.mk [c]
  else if c == ' ' then "+"
  else
    String.join ((utf8Bytes c).map fun b =>
      String.mk ['%', hexDigitUpper (b / 16), hexDigitUpper (b % 16)])

/-- `urllib.parse.quote_plus` on a string. -/
def quotePlus (s : String) : String :=
  String.join (s.toList.map quotePlusChar)

/-- `urllib.parse.urlencode`: ampersand-joined `key=value` pairs, each
percent-encoded. -/
def urlencode (ps : List (String × String)) : String :=
  String.intercalate "&" (ps.map fun p => quotePlus p.1 ++ "=" ++ quotePlus p.2)

/-- A `requests.Session`: TLS verification setting plus header map.  The
session is the transport identity every attempt is issued with. -/
structure Session where
  verify : Option String
  headers : List (String × String)
deriving Repr

/-- Default headers of a freshly constructed `requests.Session` (library
constant, external to the repository; its exact contents decide no claim). -/
def requestsDefaultHeaders : List (String × String) := []

/-- Case-insensitive header update, as `requests` CaseInsensitiveDict. -/
def headersUpdate (hs : List (String × String)) (k v : String) :
    List (String × String) :=
  if (hs.map fun kv => kv.1.toLower).contains k.toLower then
    hs.map fun kv => if kv.1.toLower == k.toLower then (kv.1, v) else kv
  else hs ++ [(k, v)]

/-- Case-insensitive header lookup. -/
def headerGet (hs : List (String × String)) (k : String) : Option String :=
  match hs with
  | [] => none
  | (k0, v) :: rest => if k0.toLower == k.toLower then some v else headerGet rest k

/-- An HTTP response as seen through `requests`: status code, reason
phrase, body as text and body as decoded JSON. -/
structure HttpResponse where
  status : Nat
  reason : String
  text : String
  content : Json
deriving Repr

/-- One transport attempt: the keyword arguments `do_request` hands to
`self.client.post/patch/get`, the effective URL (query string already
appended) and a snapshot of the session the call goes out on. -/
structure Attempt where
  method : String
  url : String
  jsonData : Option (List (String × Json))
  body : Option String
  headers : Option (List (String × String))
  session : Session
deriving Repr

/-- Observable history of a run: transport attempts in order, number of
calls of the refresh routine, number of "cannot refresh" warnings. -/
structure Trace where
  attempts : List Attempt
  refreshCalls : Nat
  warnings : Nat
deriving Repr

/-- The empty trace. -/
def Trace.empty : Trace := ⟨[], 0, 0⟩

/-- Client-instance state: current session, TLS setting, root URL, the
recorded auth-method name (`_auth_function`, "" when unset) and the stored
API key. -/
structure ClientState where
  client : Session
  tlsCert : Option String
  urlRoot : String
  authFunction : String
  apikey : Option String
deriving Repr

/-- The Python exceptions the pipeline can raise. -/
inductive PyError where
  | valueError : String → PyError
  | yetiApiError : Nat → String → PyError
  | yetiAuthError : String → PyError
  | runtimeError : String → PyError
  | keyError : String → PyError
deriving Repr

/-- The transport oracle: global attempt index and attempt descriptor to
HTTP response. -/
def Tp : Type := Nat → Attempt → HttpResponse

/-- The message `requests.raise_for_status` attaches to an HTTPError. -/
def httpErrorMsg (status : Nat) (reason url : String) : String :=
  if status < 500 then
    toString status ++ " Client Error: " ++ reason ++ " for url: " ++ url
  else
    toString status ++ " Server Error: " ++ reason ++ " for url: " ++ url

/-- `API_TOKEN_ENDPOINT` constant of the source. -/
def API_TOKEN_ENDPOINT : String := "/api/v2/auth/api-token"

/-- The effective URL of an attempt: the encoded query string is appended
when `params` is truthy (`url = f"{url}?{urlencode(params)}"`). -/
def effUrl (url : String) (params : Option (List (String × String))) : String :=
  if listTruthy params then url ++ "?" ++ urlencode (params.getD []) else url

/-- The attempt `do_request` issues: keyword arguments are included only
when the corresponding argument is truthy, the query string is folded
into the URL, and the current session is attached. -/
def mkAttempt (st : ClientState) (method url : String)
    (jsonData : Option (List (String × Json))) (body : Option String)
    (headers : Option (List (String × String)))
    (params : Option (List (String × String))) : Attempt :=
  { method := method,
    url := effUrl url params,
    jsonData := if listTruthy jsonData then jsonData else none,
    body := if strTruthy body then body else none,
    headers := if listTruthy headers then headers else none,
    session := st.client }

/-- `YetiApi.__init__`: fresh session, optional TLS certificate, no auth
function recorded, no API key stored. -/
def YetiApi.init (urlRoot : String) (tlsCert : Option String) :
    ClientState :=
  { client :=
      { verify := if strTruthy tlsCert then tlsCert else none,
        headers := requestsDefaultHeaders },
    tlsCert := tlsCert,
    urlRoot := urlRoot,
    authFunction := "",
    apikey := none }

mutual

/-- `YetiApi.do_request`: reject json+body, build the keyword arguments by
truthiness, append the encoded query string, issue the attempt through the
current session, return the content on success, retry via `refresh_auth`
on 401 while the budget lasts, raise YetiAuthError at budget zero, raise
YetiApiError on every other HTTP error status.  The retry recursion passes
the already-amended URL and drops `params`, exactly as the source does. -/
def do_request (tp : Tp) :
    Nat → ClientState → Trace → String → String →
    Option (List (String × Json)) → Option String →
    Option (List (String × String)) → Int →
    Option (List (String × String)) →
    Option (Except PyError Json) × ClientState × Trace
  | 0, st, tr, _, _, _, _, _, _, _ => (none, st, tr)
  | fuel + 1, st, tr, method, url, jsonData, body, headers, retries, params =>
    if listTruthy jsonData && strTruthy body then
      (some (.error (.valueError "You must provide either json or body, not both.")),
       st, tr)
    else if method == "POST" || method == "PATCH" || method == "GET" then
      let att := mkAttempt st method url jsonData body headers params
      let resp := tp tr.attempts.length att
      let tr1 : Trace := { tr with attempts := tr.attempts ++ [att] }
      if resp.status < 400 then
        (some (.ok resp.content), st, tr1)
      else if resp.status == 401 then
        if retries == 0 then
          (some (.error (.yetiAuthError
            (httpErrorMsg resp.status resp.reason (effUrl url params)))), st, tr1)
        else
          match refresh_auth tp fuel st tr1 with
          | (some (.ok _), st1, tr2) =>
              do_request tp fuel st1 tr2 method (effUrl url params) jsonData
                body headers (retries - 1) none
          | (some (.error e), st1, tr2) => (some (.error e), st1, tr2)
          | (none, st1, tr2) => (none, st1, tr2)
      else
        (some (.error (.yetiApiError resp.status resp.text)), st, tr1)
    else
      (some (.error (.valueError ("Unsupported method: " ++ method))), st, tr)

/-- `YetiApi.refresh_auth`: re-invoke the recorded auth function from the
auth-function map, or emit a warning and do nothing when none is
recorded. -/
def refresh_auth (tp : Tp) :
    Nat → ClientState → Trace →
    Option (Except PyError Unit) × ClientState × Trace
  | 0, st, tr => (none, st, tr)
  | fuel + 1, st, tr =>
    let tr1 : Trace := { tr with refreshCalls := tr.refreshCalls + 1 }
    if st.authFunction.isEmpty then
      (some (.ok ()), st, { tr1 with warnings := tr1.warnings + 1 })
    else if st.authFunction == "auth_api_key" then
      auth_api_key tp fuel st tr1 none
    else
      (some (.error (.keyError st.authFunction)), st, tr1)

/-- `YetiApi.auth_api_key`: store a newly supplied key, fail on a missing
key, exchange the key for an access token at the token endpoint (the key
travels in the `x-yeti-apikey` header), fail when the response JSON lacks
a truthy `access_token`, otherwise install a freshly constructed session
with the bearer header and record "auth_api_key" as the auth function. -/
def auth_api_key (tp : Tp) :
    Nat → ClientState → Trace → Option String →
    Option (Except PyError Unit) × ClientState × Trace
  | 0, st, tr, _ => (none, st, tr)
  | fuel + 1, st, tr, apikey =>
    let st1 := match apikey with
      | some k => { st with apikey := some k }
      | none => st
    if !(strTruthy st1.apikey) then
      (some (.error (.valueError "No API key provided.")), st1, tr)
    else
      match do_request tp fuel st1 tr "POST"
          (st1.urlRoot ++ API_TOKEN_ENDPOINT) none none
          (some [("x-yeti-apikey", st1.apikey.getD "")]) 3 none with
      | (none, st2, tr2) => (none, st2, tr2)
      | (some (.error e), st2, tr2) => (some (.error e), st2, tr2)
      | (some (.ok response), st2, tr2) =>
        match response.get "access_token" with
        | some tok =>
          if tok.falsy then
            (some (.error (.runtimeError
              ("Failed to find access token in the response: " ++ response.pyStr))),
             st2, tr2)
          else
            let authd : Session :=
              { verify := if strTruthy st2.tlsCert then st2.tlsCert else none,
                headers :=
                  headersUpdate requestsDefaultHeaders "authorization"
                    ("Bearer " ++ tok.pyStr) }
            (some (.ok ()),
             { st2 with client := authd, authFunction := "auth_api_key" }, tr2)
        | none =>
          (some (.error (.runtimeError
            ("Failed to find access token in the response: " ++ response.pyStr))),
           st2, tr2)

end

/-- `YetiApi.find_indicator`: GET lookup by name and type; a YetiApiError
with status 404 is translated to an absent result, every other exception
propagates. -/
def find_indicator (tp : Tp) (fuel : Nat) (st : ClientState) (tr : Trace)
    (name type : String) :
    Option (Except PyError (Option Json)) × ClientState × Trace :=
  match do_request tp fuel st tr "GET" (st.urlRoot ++ "/api/v2/indicators/")
      none none none 3 (some [("name", name), ("type", type)]) with
  | (some (.error (.yetiApiError s m)), st1, tr1) =>
      if s == 404 then (some (.ok none), st1, tr1)
      else (some (.error (.yetiApiError s m)), st1, tr1)
  | (some (.error e), st1, tr1) => (some (.error e), st1, tr1)
  | (some (.ok content), st1, tr1) => (some (.ok (some content)), st1, tr1)
  | (none, st1, tr1) => (none, st1, tr1)

/-- `YetiApi.find_entity`: same wrapper shape against the entities
endpoint. -/
def find_entity (tp : Tp) (fuel : Nat) (st : ClientState) (tr : Trace)
    (name type : String) :
    Option (Except PyError (Option Json)) × ClientState × Trace :=
  match do_request tp fuel st tr "GET" (st.urlRoot ++ "/api/v2/entities/")
      none none none 3 (some [("name", name), ("type", type)]) with
  | (some (.error (.yetiApiError s m)), st1, tr1) =>
      if s == 404 then (some (.ok none), st1, tr1)
      else (some (.error (.yetiApiError s m)), st1, tr1)
  | (some (.error e), st1, tr1) => (some (.error e), st1, tr1)
  | (some (.ok content), st1, tr1) => (some (.ok (some content)), st1, tr1)
  | (none, st1, tr1) => (none, st1, tr1)

/-- `YetiApi.find_observable`: same wrapper shape against the observables
endpoint, keyed by value and type. -/
def find_observable (tp : Tp) (fuel : Nat) (st : ClientState) (tr : Trace)
    (value type : String) :
    Option (Except PyError (Option Json)) × ClientState × Trace :=
  match do_request tp fuel st tr "GET" (st.urlRoot ++ "/api/v2/observables/")
      none none none 3 (some [("value", value), ("type", type)]) with
  | (some (.error (.yetiApiError s m)), st1, tr1) =>
      if s == 404 then (some (.ok none), st1, tr1)
      else (some (.error (.yetiApiError s m)), st1, tr1)
  | (some (.error e), st1, tr1) => (some (.error e), st1, tr1)
  | (some (.ok content), st1, tr1) => (some (.ok (some content)), st1, tr1)
  | (none, st1, tr1) => (none, st1, tr1)

/-- `YetiApi.find_dfiq`: same wrapper shape against the dfiq endpoint. -/
def find_dfiq (tp : Tp) (fuel : Nat) (st : ClientState) (tr : Trace)
    (name dfiq_type : String) :
    Option (Except PyError (Option Json)) × ClientState × Trace :=
  match do_request tp fuel st tr "GET" (st.urlRoot ++ "/api/v2/dfiq/")
      none none none 3 (some [("name", name), ("type", dfiq_type)]) with
  | (some (.error (.yetiApiError s m)), st1, tr1) =>
      if s == 404 then (some (.ok none), st1, tr1)
      else (some (.error (.yetiApiError s m)), st1, tr1)
  | (some (.error e), st1, tr1) => (some (.error e), st1, tr1)
  | (some (.ok content), st1, tr1) => (some (.ok (some content)), st1, tr1)
  | (none, st1, tr1) => (none, st1, tr1)

/-- `YetiApi.search_indicators`: requires one of name, indicator_type,
pattern, description or tags; builds the query from the truthy fields in
source order and POSTs it to the indicators search endpoint, then projects
the "indicators" field of the response. -/
def search_indicators (tp : Tp) (fuel : Nat) (st : ClientState) (tr : Trace)
    (name indicator_type pattern description : Option String)
    (tags : Option (List String)) (count : Int) (page : Int) :
    Option (Except PyError Json) × ClientState × Trace :=
  if !(strTruthy name || strTruthy indicator_type || strTruthy pattern ||
       strTruthy description || listTruthy tags) then
    (some (.error (.valueError
      "You must provide one of name, indicator_type, pattern, description, or tags.")),
     st, tr)
  else
    let query : List (String × Json) :=
      (if strTruthy name then [("name", Json.str (name.getD ""))] else []) ++
      (if strTruthy pattern then [("pattern", Json.str (pattern.getD ""))] else []) ++
      (if strTruthy description then
        [("description", Json.str (description.getD ""))] else []) ++
      (if strTruthy indicator_type then
        [("type", Json.str (indicator_type.getD ""))] else []) ++
      (if listTruthy tags then
        [("tags", Json.arr ((tags.getD []).map Json.str))] else [])
    let params : List (String × Json) :=
      [("query", Json.obj query), ("count", Json.num count),
       ("page", Json.num page)]
    match do_request tp fuel st tr "POST"
        (st.urlRoot ++ "/api/v2/indicators/search") (some params) none none
        3 none with
    | (some (.ok content), st1, tr1) =>
        match content.get "indicators" with
        | some v => (some (.ok v), st1, tr1)
        | none => (some (.error (.keyError "indicators")), st1, tr1)
    | (some (.error e), st1, tr1) => (some (.error e), st1, tr1)
    | (none, st1, tr1) => (none, st1, tr1)

/-- `YetiApi.search_entities`: the required-filter guard checks only name,
entity_type and description (not tags), while tags do join the query when
truthy; POSTs to the entities search endpoint and projects "entities". -/
def search_entities (tp : Tp) (fuel : Nat) (st : ClientState) (tr : Trace)
    (name entity_type description : Option String)
    (tags : Option (List String)) (count : Int) (page : Int) :
    Option (Except PyError Json) × ClientState × Trace :=
  if !(strTruthy name || strTruthy entity_type || strTruthy description) then
    (some (.error (.valueError "You must provide one of name, type, or description.")),
     st, tr)
  else
    let query : List (String × Json) :=
      (if strTruthy name then [("name", Json.str (name.getD ""))] else []) ++
      (if strTruthy entity_type then
        [("type", Json.str (entity_type.getD ""))] else []) ++
      (if strTruthy description then
        [("description", Json.str (description.getD ""))] else []) ++
      (if listTruthy tags then
        [("tags", Json.arr ((tags.getD []).map Json.str))] else [])
    let params : List (String × Json) :=
      [("query", Json.obj query), ("count", Json.num count),
       ("page", Json.num page)]
    match do_request tp fuel st tr "POST"
        (st.urlRoot ++ "/api/v2/entities/search") (some params) none none
        3 none with
    | (some (.ok content), st1, tr1) =>
        match content.get "entities" with
        | some v => (some (.ok v), st1, tr1)
        | none => (some (.error (.keyError "entities")), st1, tr1)
    | (some (.error e), st1, tr1) => (some (.error e), st1, tr1)
    | (none, st1, tr1) => (none, st1, tr1)

/-- Big-endian list of `k` lowercase-hex digit characters of `n`. -/
def hexChars : Nat → Nat → List Char
  | 0, _ => []
  | k + 1, n => hexChars k (n / 16) ++ [hexDigitLower (n % 16)]

/-- Modelled from the spec: the multipart boundary token.  The source
delegates boundary generation to requests_toolbelt's MultipartEncoder
(a uuid4 hex string), which lies outside this repository; the spec asks
for a randomly generated, fresh, 32-lowercase-hex token per invocation.
The randomness source is modelled as an invocation counter rendered as
32 lowercase-hex digits, which is injective below 16^32. -/
def genBoundary (n : Nat) : String :=
  String.mk (hexChars 32 n)

/-- The Content-Type header value the MultipartEncoder reports:
`multipart/form-data; boundary=<boundary>`. -/
def multipartContentType (boundary : String) : String :=
  "multipart/form-data; boundary=" ++ boundary

/-- A lowercase hexadecimal character: a digit or a letter a-f (the
character class of the spec's boundary regex `[a-f0-9]`). -/
def isLowerHex (c : Char) : Bool :=
  c.isDigit || ('a' ≤ c && c ≤ 'f')

/-- Modelled from the spec: the single-field multipart body
requests_toolbelt builds for field "archive", filename "archive.zip",
content type application/zip (`MultipartEncoder.to_string`). -/
def multipartBody (boundary data : String) : String :=
  "--" ++ boundary ++ "\r\n" ++
  "Content-Disposition: form-data; name=\"archive\"; filename=\"archive.zip\"\r\n" ++
  "Content-Type: application/zip\r\n\r\n" ++
  data ++ "\r\n--" ++ boundary ++ "--\r\n"

/-- `YetiApi.upload_dfiq_archive`: the archive bytes (file reading is
I/O, modelled as the argument `data`) are wrapped in a fresh multipart
envelope whose Content-Type header is passed as the extra header and
whose encoding is passed as the binary body; `bseed` is the invocation
index feeding the boundary generator. -/
def upload_dfiq_archive (tp : Tp) (fuel : Nat) (st : ClientState)
    (tr : Trace) (bseed : Nat) (data : String) :
    Option (Except PyError Json) × ClientState × Trace :=
  let contentType := multipartContentType (genBoundary bseed)
  let headers : List (String × String) := [("Content-Type", contentType)]
  match do_request tp fuel st tr "POST"
      (st.urlRoot ++ "/api/v2/dfiq/from_archive") none
      (some (multipartBody (genBoundary bseed) data)) (some headers) 3 none with
  | (some (.ok content), st1, tr1) => (some (.ok content), st1, tr1)
  | (some (.error e), st1, tr1) => (some (.error e), st1, tr1)
  | (none, st1, tr1) => (none, st1, tr1)

/-! ### Concrete fixtures used by witnesses and counterexamples -/

/-- A transport that answers every attempt with the same response. -/
def tpConst (r : HttpResponse) : Tp := fun _ _ => r

/-- A permanent 401 response. -/
def resp401 : HttpResponse := ⟨401, "Unauthorized", "Unauthorized", Json.null⟩

/-- A successful response with the given JSON content. -/
def respOk (c : Json) : HttpResponse := ⟨200, "OK", "ok", c⟩

/-- A 400 response with diagnostic text. -/
def respBad : HttpResponse := ⟨400, "Bad Request", "bad request details", Json.null⟩

/-- A 404 response. -/
def resp404 : HttpResponse := ⟨404, "Not Found", "not found", Json.null⟩

/-- A successful token-exchange response carrying access token "T". -/
def respTok : HttpResponse := respOk (Json.obj [("access_token", Json.str "T")])

/-- A transport that always returns 401. -/
def tp401c : Tp := tpConst resp401

/-- A transport that always succeeds with an empty JSON object. -/
def tpOkEmpty : Tp := tpConst (respOk (Json.obj []))

/-- A transport returning 401 on the first two attempts and success (with
an empty JSON object) from the third attempt on. -/
def tp012 : Tp := fun n _ => if n < 2 then resp401 else respOk (Json.obj [])

/-- A fresh, never-authenticated client. -/
def stFresh : ClientState := YetiApi.init "http://yeti" none

/-- A client after a successful API-key authentication: bearer session
installed, auth function recorded, key stored. -/
def stAuthd : ClientState :=
  { client := ⟨none, [("authorization", "Bearer old")]⟩,
    tlsCert := none,
    urlRoot := "http://yeti",
    authFunction := "auth_api_key",
    apikey := some "key" }

/-! ### Small step lemmas for the pipeline -/

theorem strTruthy_none : strTruthy none = false := rfl

theorem strTruthy_some (s : String) : strTruthy (some s) = !s.isEmpty := rfl

theorem listTruthy_none {α : Type} : listTruthy (none : Option (List α)) = false := rfl

theorem listTruthy_some {α : Type} (xs : List α) :
    listTruthy (some xs) = !xs.isEmpty := rfl

theorem effUrl_none (url : String) : effUrl url none = url := rfl

/-- Stability of the attempt under the retry rewrite: retrying with the
already-amended URL and no params reproduces the original attempt. -/
theorem mkAttempt_retry (st : ClientState) (method url : String)
    (jsonData : Option (List (String × Json))) (body : Option String)
    (headers : Option (List (String × String)))
    (params : Option (List (String × String))) :
    mkAttempt st method (effUrl url params) jsonData body headers none
      = mkAttempt st method url jsonData body headers params := rfl

/-- Unfolding `do_request` on a successful first attempt. -/
theorem do_request_ok_step (tp : Tp) (f : Nat) (st : ClientState) (tr : Trace)
    (method url : String) (jsonData : Option (List (String × Json)))
    (body : Option String) (headers : Option (List (String × String)))
    (retries : Int) (params : Option (List (String × String)))
    (hjb : (listTruthy jsonData && strTruthy body) = false)
    (hm : (method == "POST" || method == "PATCH" || method == "GET") = true)
    (hs : (tp tr.attempts.length
      (mkAttempt st method url jsonData body headers params)).status < 400) :
    do_request tp (f + 1) st tr method url jsonData body headers retries params
      = (some (.ok (tp tr.attempts.length
            (mkAttempt st method url jsonData body headers params)).content),
         st,
         { tr with attempts := tr.attempts ++
             [mkAttempt st method url jsonData body headers params] }) := by
  simp only [do_request, hjb, hm, Bool.false_eq_true, if_false, if_true, hs,
    if_pos]

/-- Unfolding `do_request` on a first attempt failing with a non-401 HTTP
error: one attempt, no refresh, YetiApiError with the response's status and
verbatim text. -/
theorem do_request_apierror_step (tp : Tp) (f : Nat) (st : ClientState)
    (tr : Trace) (method url : String)
    (jsonData : Option (List (String × Json))) (body : Option String)
    (headers : Option (List (String × String))) (retries : Int)
    (params : Option (List (String × String)))
    (hjb : (listTruthy jsonData && strTruthy body) = false)
    (hm : (method == "POST" || method == "PATCH" || method == "GET") = true)
    (h4 : 400 ≤ (tp tr.attempts.length
      (mkAttempt st method url jsonData body headers params)).status)
    (hn : (tp tr.attempts.length
      (mkAttempt st method url jsonData body headers params)).status ≠ 401) :
    do_request tp (f + 1) st tr method url jsonData body headers retries params
      = (some (.error (.yetiApiError
            (tp tr.attempts.length
              (mkAttempt st method url jsonData body headers params)).status
            (tp tr.attempts.length
              (mkAttempt st method url jsonData body headers params)).text)),
         st,
         { tr with attempts := tr.attempts ++
             [mkAttempt st method url jsonData body headers params] }) := by
  simp only [do_request, hjb, hm, Bool.false_eq_true, if_false, if_true]
  have h1 : ¬ ((tp tr.attempts.length
      (mkAttempt st method url jsonData body headers params)).status < 400) := by
    omega
  simp only [h1, if_false, beq_iff_eq, hn, if_neg, ite_false]

/-- Unfolding `do_request` on a 401 first attempt with an exhausted retry
budget: terminal YetiAuthError. -/
theorem do_request_exhausted_step (tp : Tp) (f : Nat) (st : ClientState)
    (tr : Trace) (method url : String)
    (jsonData : Option (List (String × Json))) (body : Option String)
    (headers : Option (List (String × String)))
    (params : Option (List (String × String)))
    (hjb : (listTruthy jsonData && strTruthy body) = false)
    (hm : (method == "POST" || method == "PATCH" || method == "GET") = true)
    (h4 : (tp tr.attempts.length
      (mkAttempt st method url jsonData body headers params)).status = 401) :
    do_request tp (f + 1) st tr method url jsonData body headers 0 params
      = (some (.error (.yetiAuthError
            (httpErrorMsg 401
              (tp tr.attempts.length
                (mkAttempt st method url jsonData body headers params)).reason
              (effUrl url params)))),
         st,
         { tr with attempts := tr.attempts ++
             [mkAttempt st method url jsonData body headers params] }) := by
  simp only [do_request, hjb, hm, Bool.false_eq_true, if_false, if_true, h4]
  norm_num

/-- Unfolding `do_request` on a 401 first attempt with budget left: the
refresh routine runs, then the request is retried against the amended URL
with the budget decremented and `params` dropped. -/
theorem do_request_retry_step (tp : Tp) (f : Nat) (st : ClientState)
    (tr : Trace) (method url : String)
    (jsonData : Option (List (String × Json))) (body : Option String)
    (headers : Option (List (String × String))) (retries : Int)
    (params : Option (List (String × String)))
    (hjb : (listTruthy jsonData && strTruthy body) = false)
    (hm : (method == "POST" || method == "PATCH" || method == "GET") = true)
    (h4 : (tp tr.attempts.length
      (mkAttempt st method url jsonData body headers params)).status = 401)
    (hr : retries ≠ 0) :
    do_request tp (f + 1) st tr method url jsonData body headers retries params
      = (match refresh_auth tp f st
            { tr with attempts := tr.attempts ++
                [mkAttempt st method url jsonData body headers params] } with
         | (some (.ok _), st1, tr2) =>
             do_request tp f st1 tr2 method (effUrl url params) jsonData body
               headers (retries - 1) none
         | (some (.error e), st1, tr2) => (some (.error e), st1, tr2)
         | (none, st1, tr2) => (none, st1, tr2)) := by
  simp only [do_request, hjb, hm, Bool.false_eq_true, if_false, if_true, h4]
  norm_num [hr]

/-- Unfolding `refresh_auth` when no auth function was ever recorded: a
warning, no state change, no transport activity. -/
theorem refresh_auth_warn_step (tp : Tp) (f : Nat) (st : ClientState)
    (tr : Trace) (hst : st.authFunction = "") :
    refresh_auth tp (f + 1) st tr
      = (some (.ok ()), st,
         ⟨tr.attempts, tr.refreshCalls + 1, tr.warnings + 1⟩) := by
  simp only [refresh_auth, hst, String.isEmpty_iff, if_pos]

/-! ### Claim theorems -/

/-- Claim C1 (amended).  Against a transport that always answers 401, a
client on which no authentication method has ever been recorded (so that
the refresh routine is the warning no-op) raises YetiAuthError after
exactly `retries + 1` transport attempts, all identical, having invoked
the refresh routine `retries` times.  The restriction to an unrecorded
auth method is forced: once `auth_api_key` has been recorded, the refresh
routine re-enters the pipeline with a fresh default budget and the
recursion is unbounded (see the counterexample). -/
theorem do_request_exhausts_after_retries_plus_one
    (tp : Tp) (r0 : HttpResponse) (htp : ∀ n a, tp n a = r0)
    (h401 : r0.status = 401)
    (st : ClientState) (hauth : st.authFunction = "")
    (r : Nat) (method : String)
    (jsonData : Option (List (String × Json))) (body : Option String)
    (headers : Option (List (String × String)))
    (hjb : (listTruthy jsonData && strTruthy body) = false)
    (hm : (method == "POST" || method == "PATCH" || method == "GET") = true)
    (url : String) (params : Option (List (String × String))) (tr : Trace)
    (fuel : Nat) (hf : r + 1 ≤ fuel) :
    do_request tp fuel st tr method url jsonData body headers (r : Int) params
      = (some (.error (.yetiAuthError
            (httpErrorMsg 401 r0.reason (effUrl url params)))),
         st,
         ⟨tr.attempts ++ List.replicate (r + 1)
            (mkAttempt st method url jsonData body headers params),
          tr.refreshCalls + r, tr.warnings + r⟩) := by
  induction r generalizing url params tr fuel with
  | zero =>
    obtain ⟨f, rfl⟩ : ∃ f, fuel = f + 1 := ⟨fuel - 1, by omega⟩
    have h := do_request_exhausted_step tp f st tr method url jsonData body
      headers params hjb hm (by rw [htp]; exact h401)
    rw [show ((0 : Nat) : Int) = 0 from rfl, h, htp]
    simp
  | succ r ih =>
    obtain ⟨f, rfl⟩ : ∃ f, fuel = f + 1 := ⟨fuel - 1, by omega⟩
    have hr : ((r + 1 : Nat) : Int) ≠ 0 := by
      exact_mod_cast Nat.succ_ne_zero r
    rw [do_request_retry_step tp f st tr method url jsonData body headers _
      params hjb hm (by rw [htp]; exact h401) hr]
    obtain ⟨g, rfl⟩ : ∃ g, f = g + 1 := ⟨f - 1, by omega⟩
    rw [refresh_auth_warn_step tp g st _ hauth]
    dsimp only
    have hcast : ((r + 1 : Nat) : Int) - 1 = (r : Int) := by push_cast; ring
    rw [hcast]
    rw [ih (effUrl url params) none _ (g + 1) (by omega)]
    simp [mkAttempt_retry, effUrl_none, List.replicate_succ, Trace.mk.injEq]
    constructor
    · omega
    · omega

/-- Witness for C1: with budget 2 and a permanently-401 transport, a fresh
client observes exactly 3 identical attempts, 2 refresh invocations, and a
terminal YetiAuthError. -/
theorem do_request_exhausts_after_retries_plus_one_witness :
    do_request tp401c 3 stFresh Trace.empty "GET"
        "http://yeti/api/v2/observables/" none none none ((2 : Nat) : Int) none
      = (some (.error (.yetiAuthError
            (httpErrorMsg 401 "Unauthorized" "http://yeti/api/v2/observables/"))),
         stFresh,
         ⟨List.replicate 3
            (mkAttempt stFresh "GET" "http://yeti/api/v2/observables/"
              none none none none), 2, 2⟩) := by
  have h := do_request_exhausts_after_retries_plus_one tp401c resp401
    (fun n a => rfl) rfl stFresh rfl 2 "GET" none none none rfl rfl
    "http://yeti/api/v2/observables/" none Trace.empty 3 (by omega)
  simpa using h

set_option maxHeartbeats 2000000 in
/-- Counterexample for C1 as stated.  In the reachable state left behind by
a successful `auth_api_key` (auth function recorded, key stored), a
permanently-401 transport does NOT stop after `retries + 1 = 3` attempts:
within fuel 12 the pipeline has already issued 4 attempts (the refresh
routine re-enters `do_request` with a fresh default budget of 3) and no
YetiAuthError has been raised; the mutual recursion has no decreasing
measure, so the loop is unbounded. -/
theorem do_request_unbounded_after_auth_counterexample :
    (do_request tp401c 12 stAuthd Trace.empty "GET"
        "http://yeti/api/v2/observables/" none none none 2 none).1 = none
    ∧ (do_request tp401c 12 stAuthd Trace.empty "GET"
        "http://yeti/api/v2/observables/" none none none 2 none).2.2.attempts.length
      = 4 := ⟨rfl, rfl⟩

/-- One full 401-refresh-retry round of the pipeline when no auth method
is recorded: the attempt is logged, the refresh warns, and the request is
re-dispatched with one unit less fuel and budget, the amended URL and no
params. -/
theorem do_request_round_401 (tp : Tp) (f : Nat) (st : ClientState)
    (tr : Trace) (method url : String)
    (jsonData : Option (List (String × Json))) (body : Option String)
    (headers : Option (List (String × String))) (retries : Int)
    (params : Option (List (String × String)))
    (hauth : st.authFunction = "")
    (hjb : (listTruthy jsonData && strTruthy body) = false)
    (hm : (method == "POST" || method == "PATCH" || method == "GET") = true)
    (h4 : (tp tr.attempts.length
      (mkAttempt st method url jsonData body headers params)).status = 401)
    (hr : retries ≠ 0) :
    do_request tp (f + 1 + 1) st tr method url jsonData body headers retries
        params
      = do_request tp (f + 1) st
          ⟨tr.attempts ++ [mkAttempt st method url jsonData body headers params],
           tr.refreshCalls + 1, tr.warnings + 1⟩
          method (effUrl url params) jsonData body headers (retries - 1)
          none := by
  rw [do_request_retry_step tp (f + 1) st tr method url jsonData body headers
    retries params hjb hm h4 hr]
  rw [refresh_auth_warn_step tp f st _ hauth]

/-- Claim C2 (amended).  Against a transport answering 401 on the first
two attempts and succeeding from the third, a dispatch with budget 3 from
a client with no recorded auth method (the spec's unit-test setup, where
the refresh routine does not itself dispatch requests) returns the
successful response content, invokes the refresh routine exactly twice,
and issues all three attempts with the same method, URL, JSON body,
binary body, extra headers and session as the original call.  The
restriction on the recorded auth method is forced: see the
counterexample, where a recorded auth method makes the refresh re-enter
the pipeline and the same transport produces a RuntimeError instead. -/
theorem do_request_retry_then_success
    (tp : Tp) (r2 : HttpResponse)
    (h0 : ∀ a, (tp 0 a).status = 401)
    (h1 : ∀ a, (tp 1 a).status = 401)
    (h2 : ∀ a, tp 2 a = r2) (hs : r2.status < 400)
    (st : ClientState) (hauth : st.authFunction = "")
    (method url : String) (jsonData : Option (List (String × Json)))
    (body : Option String) (headers : Option (List (String × String)))
    (params : Option (List (String × String)))
    (hjb : (listTruthy jsonData && strTruthy body) = false)
    (hm : (method == "POST" || method == "PATCH" || method == "GET") = true)
    (fuel : Nat) (hf : 3 ≤ fuel) :
    do_request tp fuel st Trace.empty method url jsonData body headers 3 params
      = (some (.ok r2.content), st,
         ⟨List.replicate 3
            (mkAttempt st method url jsonData body headers params), 2, 2⟩) := by
  obtain ⟨f, rfl⟩ : ∃ f, fuel = f + 1 + 1 + 1 := ⟨fuel - 3, by omega⟩
  have hs2 : ∀ a, (tp 2 a).status < 400 := fun a => by rw [h2]; exact hs
  show do_request tp (f + 1 + 1 + 1) st ⟨[], 0, 0⟩ method url jsonData body
    headers 3 params = _
  rw [do_request_round_401 tp (f + 1) st ⟨[], 0, 0⟩ method url jsonData body
    headers 3 params hauth hjb hm (h0 _) (by norm_num)]
  simp only [List.nil_append]
  norm_num only
  rw [do_request_round_401 tp f st
    ⟨[mkAttempt st method url jsonData body headers params], 1, 1⟩ method
    (effUrl url params) jsonData body headers 2 none hauth hjb hm (h1 _)
    (by norm_num)]
  simp only [List.cons_append, List.nil_append]
  norm_num only
  rw [do_request_ok_step tp f st
    ⟨[mkAttempt st method url jsonData body headers params,
      mkAttempt st method (effUrl url params) jsonData body headers none],
     2, 2⟩ method (effUrl (effUrl url params) none) jsonData body headers 1
    none hjb hm (hs2 _)]
  simp [h2, mkAttempt_retry, effUrl_none, List.replicate_succ]

/-- Witness for C2: the canonical 401-401-200 transport with a fresh
client succeeds with the third response's content after exactly two
refresh invocations and three identical attempts. -/
theorem do_request_retry_then_success_witness :
    do_request tp012 3 stFresh Trace.empty "GET" "http://yeti/api/v2/x"
        none none none 3 none
      = (some (.ok (Json.obj [])), stFresh,
         ⟨List.replicate 3
            (mkAttempt stFresh "GET" "http://yeti/api/v2/x" none none none
              none), 2, 2⟩) := by
  have h := do_request_retry_then_success tp012 (respOk (Json.obj []))
    (fun a => rfl) (fun a => rfl) (fun a => rfl) (by norm_num [respOk])
    stFresh rfl "GET" "http://yeti/api/v2/x" none none none none rfl rfl 3
    (by omega)
  simpa using h

set_option maxHeartbeats 2000000 in
/-- Counterexample for C2 as stated.  In the state left behind by a
successful `auth_api_key`, the same 401-401-200 transport does NOT make
the dispatch succeed: the second attempt is the refresh routine's own
token exchange, the third (successful) response lacks an access_token
field, and the whole call raises RuntimeError even though the refresh
routine was invoked exactly twice.  The retried traffic is also not
identical to the original call (the token-endpoint attempt differs). -/
theorem do_request_retry_then_success_counterexample :
    (do_request tp012 12 stAuthd Trace.empty "GET" "http://yeti/api/v2/x"
        none none none 3 none).1
      = some (.error (.runtimeError
          "Failed to find access token in the response: \x7b\x7d"))
    ∧ (do_request tp012 12 stAuthd Trace.empty "GET" "http://yeti/api/v2/x"
        none none none 3 none).2.2.refreshCalls = 2 := ⟨rfl, rfl⟩

/-- Claim C3: a transport attempt failing with an HTTP error status other
than 401 (for example 400) results in exactly one transport attempt — no
retry, no refresh — and a YetiApiError carrying that status code and the
server's response text verbatim. -/
theorem do_request_non401_single_attempt
    (tp : Tp) (r0 : HttpResponse) (htp : ∀ n a, tp n a = r0)
    (h4 : 400 ≤ r0.status) (hn : r0.status ≠ 401)
    (st : ClientState) (tr : Trace) (method url : String)
    (jsonData : Option (List (String × Json))) (body : Option String)
    (headers : Option (List (String × String))) (retries : Int)
    (params : Option (List (String × String)))
    (hjb : (listTruthy jsonData && strTruthy body) = false)
    (hm : (method == "POST" || method == "PATCH" || method == "GET") = true)
    (fuel : Nat) (hf : 1 ≤ fuel) :
    do_request tp fuel st tr method url jsonData body headers retries params
      = (some (.error (.yetiApiError r0.status r0.text)), st,
         { tr with attempts := tr.attempts ++
             [mkAttempt st method url jsonData body headers params] }) := by
  obtain ⟨f, rfl⟩ : ∃ f, fuel = f + 1 := ⟨fuel - 1, by omega⟩
  rw [do_request_apierror_step tp f st tr method url jsonData body headers
    retries params hjb hm (by rw [htp]; exact h4) (by rw [htp]; exact hn)]
  rw [htp]

/-- Witness for C3: a constant-400 transport yields YetiApiError 400 with
the response text, after a single attempt and no refresh. -/
theorem do_request_non401_single_attempt_witness :
    do_request (tpConst respBad) 1 stFresh Trace.empty "POST"
        "http://yeti/api/v2/indicators/search"
        (some [("query", Json.obj [])]) none none 3 none
      = (some (.error (.yetiApiError 400 "bad request details")), stFresh,
         ⟨[mkAttempt stFresh "POST" "http://yeti/api/v2/indicators/search"
             (some [("query", Json.obj [])]) none none none], 0, 0⟩) := by
  have h := do_request_non401_single_attempt (tpConst respBad) respBad
    (fun n a => rfl) (by norm_num [respBad]) (by norm_num [respBad])
    stFresh Trace.empty "POST" "http://yeti/api/v2/indicators/search"
    (some [("query", Json.obj [])]) none none 3 none rfl rfl 1 (by omega)
  simpa using h

/-- Claim C4: supplying both a JSON body and a binary body raises the
usage error before any transport activity: the state and the trace are
returned untouched, in particular no attempt is recorded. -/
theorem do_request_json_body_mutual_exclusion
    (tp : Tp) (fuel : Nat) (st : ClientState) (tr : Trace)
    (method url : String) (jsonData : Option (List (String × Json)))
    (body : Option String) (headers : Option (List (String × String)))
    (retries : Int) (params : Option (List (String × String)))
    (hj : listTruthy jsonData = true) (hb : strTruthy body = true)
    (hf : 1 ≤ fuel) :
    do_request tp fuel st tr method url jsonData body headers retries params
      = (some (.error (.valueError
            "You must provide either json or body, not both.")), st, tr) := by
  obtain ⟨f, rfl⟩ : ∃ f, fuel = f + 1 := ⟨fuel - 1, by omega⟩
  simp only [do_request, hj, hb, Bool.and_self, if_true]

/-- Witness for C4: a nonempty JSON dict together with a nonempty binary
body is rejected with no attempt observed. -/
theorem do_request_json_body_mutual_exclusion_witness :
    do_request tp401c 1 stFresh Trace.empty "POST" "http://yeti/api/v2/x"
        (some [("a", Json.null)]) (some "binary") none 3 none
      = (some (.error (.valueError
            "You must provide either json or body, not both.")), stFresh,
         Trace.empty) :=
  do_request_json_body_mutual_exclusion tp401c 1 stFresh Trace.empty "POST"
    "http://yeti/api/v2/x" (some [("a", Json.null)]) (some "binary") none 3
    none rfl rfl (by omega)

/-- Claim C5: a successful `auth_api_key` whose token exchange answers
with access token `t` replaces the client's session with a freshly
constructed one whose authorization header is "Bearer t", and records
"auth_api_key" as the last-used auth method; the key exchange itself is a
single POST to the token endpoint carrying the key in the x-yeti-apikey
header. -/
theorem auth_api_key_installs_bearer_session
    (tp : Tp) (r0 : HttpResponse) (htp : ∀ n a, tp n a = r0)
    (hs : r0.status < 400) (t : String)
    (htok : r0.content.get "access_token" = some (Json.str t))
    (ht : t.isEmpty = false)
    (st : ClientState) (tr : Trace) (key : String) (hk : key.isEmpty = false)
    (fuel : Nat) (hf : 2 ≤ fuel) :
    auth_api_key tp fuel st tr (some key)
      = (some (.ok ()),
         { st with
             apikey := some key,
             client :=
               { verify := if strTruthy st.tlsCert then st.tlsCert else none,
                 headers := headersUpdate requestsDefaultHeaders
                   "authorization" ("Bearer " ++ t) },
             authFunction := "auth_api_key" },
         { tr with attempts := tr.attempts ++
             [mkAttempt { st with apikey := some key } "POST"
               (st.urlRoot ++ API_TOKEN_ENDPOINT) none none
               (some [("x-yeti-apikey", key)]) none] })
    ∧ headerGet (headersUpdate requestsDefaultHeaders "authorization"
        ("Bearer " ++ t)) "authorization" = some ("Bearer " ++ t) := by
  obtain ⟨f, rfl⟩ : ∃ f, fuel = f + 1 + 1 := ⟨fuel - 2, by omega⟩
  have hdo := do_request_ok_step tp f { st with apikey := some key } tr "POST"
    (st.urlRoot ++ API_TOKEN_ENDPOINT) none none
    (some [("x-yeti-apikey", key)]) 3 none rfl rfl (by rw [htp]; exact hs)
  constructor
  · simp only [auth_api_key, strTruthy, hk, Option.getD_some]
    rw [if_neg (by decide : ¬ ((!!false) = true))]
    rw [hdo, htp]
    dsimp only
    rw [htok]
    dsimp only [Json.falsy]
    rw [ht]
    simp [Json.pyStr]
  · simp [headersUpdate, requestsDefaultHeaders, headerGet]

/-- Witness for C5: the canonical token exchange `access_token = "T"`
installs a session whose authorization header is "Bearer T". -/
theorem auth_api_key_installs_bearer_session_witness :
    auth_api_key (tpConst respTok) 2 stFresh Trace.empty (some "key")
      = (some (.ok ()),
         { stFresh with
             apikey := some "key",
             client :=
               { verify := none,
                 headers := headersUpdate requestsDefaultHeaders
                   "authorization" "Bearer T" },
             authFunction := "auth_api_key" },
         ⟨[mkAttempt { stFresh with apikey := some "key" } "POST"
             (stFresh.urlRoot ++ API_TOKEN_ENDPOINT) none none
             (some [("x-yeti-apikey", "key")]) none], 0, 0⟩)
    ∧ headerGet (headersUpdate requestsDefaultHeaders "authorization"
        "Bearer T") "authorization" = some "Bearer T" := by
  have h := auth_api_key_installs_bearer_session (tpConst respTok) respTok
    (fun n a => rfl) (by norm_num [respTok, respOk]) "T" rfl rfl stFresh
    Trace.empty "key" rfl 2 (by omega)
  simpa [stFresh, YetiApi.init, strTruthy] using h

/-- Claim C6: when the token exchange succeeds at the HTTP level but the
JSON lacks a truthy access_token field, `auth_api_key` raises
RuntimeError, and neither the client's session nor the recorded auth
method changes. -/
theorem auth_api_key_missing_token_preserves_state
    (tp : Tp) (r0 : HttpResponse) (htp : ∀ n a, tp n a = r0)
    (hs : r0.status < 400)
    (hmiss : falsyOpt (r0.content.get "access_token") = true)
    (st : ClientState) (tr : Trace) (key : String) (hk : key.isEmpty = false)
    (fuel : Nat) (hf : 2 ≤ fuel) :
    (auth_api_key tp fuel st tr (some key)).1
      = some (.error (.runtimeError
          ("Failed to find access token in the response: " ++ r0.content.pyStr)))
    ∧ (auth_api_key tp fuel st tr (some key)).2.1.client = st.client
    ∧ (auth_api_key tp fuel st tr (some key)).2.1.authFunction
        = st.authFunction := by
  obtain ⟨f, rfl⟩ : ∃ f, fuel = f + 1 + 1 := ⟨fuel - 2, by omega⟩
  have key_eq : auth_api_key tp (f + 1 + 1) st tr (some key)
      = (some (.error (.runtimeError
          ("Failed to find access token in the response: " ++ r0.content.pyStr))),
         { st with apikey := some key },
         { tr with attempts := tr.attempts ++
             [mkAttempt { st with apikey := some key } "POST"
               (st.urlRoot ++ API_TOKEN_ENDPOINT) none none
               (some [("x-yeti-apikey", key)]) none] }) := by
    have hdo := do_request_ok_step tp f { st with apikey := some key } tr
      "POST" (st.urlRoot ++ API_TOKEN_ENDPOINT) none none
      (some [("x-yeti-apikey", key)]) 3 none rfl rfl (by rw [htp]; exact hs)
    simp only [auth_api_key, strTruthy, hk, Option.getD_some]
    rw [if_neg (by decide : ¬ ((!!false) = true))]
    rw [hdo, htp]
    dsimp only
    cases hget : r0.content.get "access_token" with
    | none => simp
    | some j =>
        rw [hget] at hmiss
        simp only [falsyOpt] at hmiss
        simp [hmiss]
  rw [key_eq]
  exact ⟨rfl, rfl, rfl⟩

/-- Witness for C6: a 200 response whose JSON body is the empty object
leaves the fresh client's session and auth method untouched and raises
RuntimeError. -/
theorem auth_api_key_missing_token_preserves_state_witness :
    (auth_api_key tpOkEmpty 2 stFresh Trace.empty (some "key")).1
      = some (.error (.runtimeError
          "Failed to find access token in the response: \x7b\x7d"))
    ∧ (auth_api_key tpOkEmpty 2 stFresh Trace.empty (some "key")).2.1.client
        = stFresh.client
    ∧ (auth_api_key tpOkEmpty 2 stFresh Trace.empty
        (some "key")).2.1.authFunction = stFresh.authFunction := by
  have h := auth_api_key_missing_token_preserves_state tpOkEmpty
    (respOk (Json.obj [])) (fun n a => rfl) (by norm_num [respOk]) rfl
    stFresh Trace.empty "key" rfl 2 (by omega)
  simpa [Json.pyStr, Json.pyFields] using h

/-- Against a constant transport failing with a non-401 HTTP error, the
pipeline performs one attempt and raises YetiApiError (helper shared by
the find-family and error-classification results). -/
theorem do_request_const_apierror (tp : Tp) (r0 : HttpResponse)
    (htp : ∀ n a, tp n a = r0) (h4 : 400 ≤ r0.status) (hn : r0.status ≠ 401)
    (st : ClientState) (tr : Trace) (method url : String)
    (jsonData : Option (List (String × Json))) (body : Option String)
    (headers : Option (List (String × String))) (retries : Int)
    (params : Option (List (String × String)))
    (hjb : (listTruthy jsonData && strTruthy body) = false)
    (hm : (method == "POST" || method == "PATCH" || method == "GET") = true)
    (f : Nat) :
    do_request tp (f + 1) st tr method url jsonData body headers retries params
      = (some (.error (.yetiApiError r0.status r0.text)), st,
         { tr with attempts := tr.attempts ++
             [mkAttempt st method url jsonData body headers params] }) := by
  rw [do_request_apierror_step tp f st tr method url jsonData body headers
    retries params hjb hm (by rw [htp]; exact h4) (by rw [htp]; exact hn)]
  rw [htp]

/-- Claim C7 (amended).  For each of the four find-family lookups, a
transport failing with status 404 yields the absent result (no
exception), and a transport failing with any other HTTP-error status
except 401 propagates as YetiApiError with the status and verbatim text.
The exception for 401 is forced: a 401 enters the pipeline's retry path
and, when retries exhaust, surfaces as YetiAuthError, not YetiApiError
(see the counterexample). -/
theorem find_family_404_translation
    (tp : Tp) (r0 : HttpResponse) (htp : ∀ n a, tp n a = r0)
    (st : ClientState) (tr : Trace) (fuel : Nat) (hf : 1 ≤ fuel)
    (name type value : String) :
    (r0.status = 404 →
      (find_indicator tp fuel st tr name type).1 = some (.ok none)
      ∧ (find_entity tp fuel st tr name type).1 = some (.ok none)
      ∧ (find_observable tp fuel st tr value type).1 = some (.ok none)
      ∧ (find_dfiq tp fuel st tr name type).1 = some (.ok none))
    ∧ (400 ≤ r0.status → r0.status ≠ 404 → r0.status ≠ 401 →
      (find_indicator tp fuel st tr name type).1
        = some (.error (.yetiApiError r0.status r0.text))
      ∧ (find_entity tp fuel st tr name type).1
        = some (.error (.yetiApiError r0.status r0.text))
      ∧ (find_observable tp fuel st tr value type).1
        = some (.error (.yetiApiError r0.status r0.text))
      ∧ (find_dfiq tp fuel st tr name type).1
        = some (.error (.yetiApiError r0.status r0.text))) := by
  obtain ⟨f, rfl⟩ : ∃ f, fuel = f + 1 := ⟨fuel - 1, by omega⟩
  constructor
  · intro h404
    refine ⟨?_, ?_, ?_, ?_⟩
    · unfold find_indicator
      rw [do_request_const_apierror tp r0 htp (by omega) (by omega) st tr
        "GET" (st.urlRoot ++ "/api/v2/indicators/") none none none 3
        (some [("name", name), ("type", type)]) rfl rfl f]
      dsimp only
      rw [h404]
      norm_num
    · unfold find_entity
      rw [do_request_const_apierror tp r0 htp (by omega) (by omega) st tr
        "GET" (st.urlRoot ++ "/api/v2/entities/") none none none 3
        (some [("name", name), ("type", type)]) rfl rfl f]
      dsimp only
      rw [h404]
      norm_num
    · unfold find_observable
      rw [do_request_const_apierror tp r0 htp (by omega) (by omega) st tr
        "GET" (st.urlRoot ++ "/api/v2/observables/") none none none 3
        (some [("value", value), ("type", type)]) rfl rfl f]
      dsimp only
      rw [h404]
      norm_num
    · unfold find_dfiq
      rw [do_request_const_apierror tp r0 htp (by omega) (by omega) st tr
        "GET" (st.urlRoot ++ "/api/v2/dfiq/") none none none 3
        (some [("name", name), ("type", type)]) rfl rfl f]
      dsimp only
      rw [h404]
      norm_num
  · intro h4 hn404 hn401
    refine ⟨?_, ?_, ?_, ?_⟩
    · unfold find_indicator
      rw [do_request_const_apierror tp r0 htp h4 hn401 st tr
        "GET" (st.urlRoot ++ "/api/v2/indicators/") none none none 3
        (some [("name", name), ("type", type)]) rfl rfl f]
      dsimp only
      simp [hn404]
    · unfold find_entity
      rw [do_request_const_apierror tp r0 htp h4 hn401 st tr
        "GET" (st.urlRoot ++ "/api/v2/entities/") none none none 3
        (some [("name", name), ("type", type)]) rfl rfl f]
      dsimp only
      simp [hn404]
    · unfold find_observable
      rw [do_request_const_apierror tp r0 htp h4 hn401 st tr
        "GET" (st.urlRoot ++ "/api/v2/observables/") none none none 3
        (some [("value", value), ("type", type)]) rfl rfl f]
      dsimp only
      simp [hn404]
    · unfold find_dfiq
      rw [do_request_const_apierror tp r0 htp h4 hn401 st tr
        "GET" (st.urlRoot ++ "/api/v2/dfiq/") none none none 3
        (some [("name", name), ("type", type)]) rfl rfl f]
      dsimp only
      simp [hn404]

/-- Witness for C7: a constant-404 transport makes `find_indicator` yield
the absent result, while a constant-400 transport makes `find_entity`
propagate YetiApiError 400 with the server text. -/
theorem find_family_404_translation_witness :
    (find_indicator (tpConst resp404) 1 stFresh Trace.empty "a" "regex").1
      = some (.ok none)
    ∧ (find_entity (tpConst respBad) 1 stFresh Trace.empty "a" "malware").1
      = some (.error (.yetiApiError 400 "bad request details")) := by
  constructor
  · exact ((find_family_404_translation (tpConst resp404) resp404
      (fun n a => rfl) stFresh Trace.empty 1 (by omega) "a" "regex" "v").1
      rfl).1
  · exact ((find_family_404_translation (tpConst respBad) respBad
      (fun n a => rfl) stFresh Trace.empty 1 (by omega) "a" "malware" "v").2
      (by norm_num [respBad]) (by norm_num [respBad])
      (by norm_num [respBad])).2.1

set_option maxHeartbeats 2000000 in
/-- Counterexample for C7 as stated: a find-family lookup against a
permanently-401 transport does not propagate an ApiError — the pipeline
retries three times and raises YetiAuthError instead. -/
theorem find_family_401_not_apierror_counterexample :
    (find_indicator tp401c 20 stFresh Trace.empty "a" "regex").1
      = some (.error (.yetiAuthError
          "401 Client Error: Unauthorized for url: http://yeti/api/v2/indicators/?name=a&type=regex")) :=
  rfl

/-- Claim C8 (amended).  `search_indicators` requires at least one of its
five filter fields (name, indicator_type, pattern, description, tags):
with all five falsy it raises the usage error before any transport
attempt, with any of them truthy the request is issued.
`search_entities`' guard, however, consults only name, entity_type and
description — tags do not count: with those three falsy the usage error
is raised even if tags are supplied (see the counterexample), and with
any of the three truthy the request is issued. -/
theorem search_required_filters
    (tp : Tp) (r0 : HttpResponse) (htp : ∀ n a, tp n a = r0)
    (hstatus : r0.status < 400) (st : ClientState) (tr : Trace)
    (name indicator_type pattern description entity_type : Option String)
    (tags : Option (List String)) (count page : Int)
    (fuel : Nat) (hf : 1 ≤ fuel) :
    ((strTruthy name || strTruthy indicator_type || strTruthy pattern ||
        strTruthy description || listTruthy tags) = false →
      search_indicators tp fuel st tr name indicator_type pattern description
          tags count page
        = (some (.error (.valueError
            "You must provide one of name, indicator_type, pattern, description, or tags.")),
           st, tr))
    ∧ ((strTruthy name || strTruthy indicator_type || strTruthy pattern ||
        strTruthy description || listTruthy tags) = true →
      (search_indicators tp fuel st tr name indicator_type pattern description
          tags count page).2.2.attempts.length = tr.attempts.length + 1)
    ∧ ((strTruthy name || strTruthy entity_type || strTruthy description)
          = false →
      search_entities tp fuel st tr name entity_type description tags count
          page
        = (some (.error (.valueError
            "You must provide one of name, type, or description.")), st, tr))
    ∧ ((strTruthy name || strTruthy entity_type || strTruthy description)
          = true →
      (search_entities tp fuel st tr name entity_type description tags count
          page).2.2.attempts.length = tr.attempts.length + 1) := by
  obtain ⟨f, rfl⟩ : ∃ f, fuel = f + 1 := ⟨fuel - 1, by omega⟩
  have hs400 : ∀ n a, (tp n a).status < 400 := fun n a => by
    rw [htp]; exact hstatus
  refine ⟨?_, ?_, ?_, ?_⟩
  · intro hfalse
    simp only [search_indicators, hfalse, Bool.not_false, if_true]
  · intro htrue
    have hcond : ¬ ((!(strTruthy name || strTruthy indicator_type ||
        strTruthy pattern || strTruthy description || listTruthy tags))
          = true) := by
      rw [htrue]; decide
    simp only [search_indicators]
    rw [if_neg hcond]
    rw [do_request_ok_step tp f st tr "POST"
      (st.urlRoot ++ "/api/v2/indicators/search") _ none none 3 none
      (Bool.and_false _) rfl (hs400 _ _)]
    rw [htp]
    dsimp only
    cases r0.content.get "indicators" with
    | none => simp
    | some v => simp
  · intro hfalse
    simp only [search_entities, hfalse, Bool.not_false, if_true]
  · intro htrue
    have hcond : ¬ ((!(strTruthy name || strTruthy entity_type ||
        strTruthy description)) = true) := by
      rw [htrue]; decide
    simp only [search_entities]
    rw [if_neg hcond]
    rw [do_request_ok_step tp f st tr "POST"
      (st.urlRoot ++ "/api/v2/entities/search") _ none none 3 none
      (Bool.and_false _) rfl (hs400 _ _)]
    rw [htp]
    dsimp only
    cases r0.content.get "entities" with
    | none => simp
    | some v => simp

/-- Witness for C8: tags alone trip the usage error on `search_entities`
but let `search_indicators` issue its request. -/
theorem search_required_filters_witness :
    search_entities tpOkEmpty 1 stFresh Trace.empty none none none
        (some ["testtag"]) 100 0
      = (some (.error (.valueError
          "You must provide one of name, type, or description.")), stFresh,
         Trace.empty)
    ∧ (search_indicators tpOkEmpty 1 stFresh Trace.empty none none none none
        (some ["testtag"]) 100 0).2.2.attempts.length = 1 := by
  constructor
  · exact (search_required_filters tpOkEmpty (respOk (Json.obj []))
      (fun n a => rfl) (by norm_num [respOk]) stFresh Trace.empty none none
      none none none (some ["testtag"]) 100 0 1 (by omega)).2.2.1 rfl
  · have h := (search_required_filters tpOkEmpty (respOk (Json.obj []))
      (fun n a => rfl) (by norm_num [respOk]) stFresh Trace.empty none none
      none none none (some ["testtag"]) 100 0 1 (by omega)).2.1 rfl
    simpa using h

/-- Counterexample for C8 as stated: `search_entities` with only the tags
filter supplied raises the usage error before any network call, although
tags are one of its documented filter fields. -/
theorem search_entities_tags_only_counterexample :
    search_entities tpOkEmpty 5 stFresh Trace.empty none none none
        (some ["x"]) 100 0
      = (some (.error (.valueError
          "You must provide one of name, type, or description.")), stFresh,
         Trace.empty) := rfl

/-- Length of the fixed-width hexadecimal rendering. -/
theorem hexChars_length (k n : Nat) : (hexChars k n).length = k := by
  induction k generalizing n with
  | zero => rfl
  | succ k ih => simp [hexChars, ih]

/-- `hexDigitLower` produces lowercase-hex characters on digit inputs. -/
theorem isLowerHex_hexDigitLower :
    ∀ a : Fin 16, isLowerHex (hexDigitLower a.val) = true := by decide

/-- `hexDigitLower` is injective on digit inputs. -/
theorem hexDigitLower_inj :
    ∀ a b : Fin 16, hexDigitLower a.val = hexDigitLower b.val → a = b := by
  decide

/-- Every character of the fixed-width hexadecimal rendering is lowercase
hex. -/
theorem hexChars_mem_lowerHex (k n : Nat) :
    ∀ c ∈ hexChars k n, isLowerHex c = true := by
  induction k generalizing n with
  | zero => intro c hc; simp [hexChars] at hc
  | succ k ih =>
    intro c hc
    simp only [hexChars, List.mem_append, List.mem_singleton] at hc
    rcases hc with h | h
    · exact ih _ c h
    · subst h
      exact isLowerHex_hexDigitLower ⟨n % 16, Nat.mod_lt _ (by norm_num)⟩

/-- The fixed-width hexadecimal rendering is injective below `16 ^ k`. -/
theorem hexChars_inj :
    ∀ (k n m : Nat), n < 16 ^ k → m < 16 ^ k → hexChars k n = hexChars k m →
      n = m := by
  intro k
  induction k with
  | zero =>
    intro n m hn hm _
    simp [pow_zero] at hn hm
    omega
  | succ k ih =>
    intro n m hn hm h
    simp only [hexChars] at h
    have hlen : (hexChars k (n / 16)).length = (hexChars k (m / 16)).length := by
      rw [hexChars_length, hexChars_length]
    obtain ⟨h1, h2⟩ := List.append_inj h hlen
    have hcons : hexDigitLower (n % 16) = hexDigitLower (m % 16) := by
      simpa using h2
    have hd := hexDigitLower_inj ⟨n % 16, Nat.mod_lt _ (by norm_num)⟩
      ⟨m % 16, Nat.mod_lt _ (by norm_num)⟩ hcons
    simp only [Fin.mk.injEq] at hd
    have hpow : 16 ^ (k + 1) = 16 ^ k * 16 := pow_succ 16 k
    have hq : n / 16 = m / 16 := ih (n / 16) (m / 16) (by omega) (by omega) h1
    omega

/-- The multipart body is never the empty byte string. -/
theorem multipartBody_isEmpty (b d : String) :
    (multipartBody b d).isEmpty = false := by
  rw [Bool.eq_false_iff]
  intro h
  have h2 := (String.isEmpty_iff _).1 h
  have h3 := congrArg String.data h2
  simp [multipartBody] at h3

/-- Claim C9 (spec-modelled boundary source).  The Content-Type header the
archive upload passes to the pipeline has the exact shape
`multipart/form-data; boundary=<32 lowercase-hex characters>`, distinct
invocation indices below 16^32 produce distinct boundary tokens, and the
attempt issued carries exactly that header together with the multipart
body.  Boundary generation (requests_toolbelt's uuid4 hex) lies outside
the repository and is modelled as the injective 32-hex-digit rendering of
an invocation counter, per the spec's freshness and format contract. -/
theorem upload_dfiq_archive_multipart_header
    (n m : Nat) (hn : n < 16 ^ 32) (hm2 : m < 16 ^ 32) (hnm : n ≠ m)
    (tp : Tp) (r0 : HttpResponse) (htp : ∀ k a, tp k a = r0)
    (hstatus : r0.status < 400) (st : ClientState) (tr : Trace)
    (data : String) (fuel : Nat) (hf : 1 ≤ fuel) :
    (genBoundary n).length = 32
    ∧ (∀ c ∈ (genBoundary n).toList, isLowerHex c = true)
    ∧ multipartContentType (genBoundary n)
        = "multipart/form-data; boundary=" ++ genBoundary n
    ∧ genBoundary n ≠ genBoundary m
    ∧ (upload_dfiq_archive tp fuel st tr n data).2.2.attempts
        = tr.attempts ++
          [{ method := "POST",
             url := st.urlRoot ++ "/api/v2/dfiq/from_archive",
             jsonData := none,
             body := some (multipartBody (genBoundary n) data),
             headers := some [("Content-Type",
               multipartContentType (genBoundary n))],
             session := st.client }] := by
  obtain ⟨f, rfl⟩ : ∃ f, fuel = f + 1 := ⟨fuel - 1, by omega⟩
  refine ⟨?_, ?_, rfl, ?_, ?_⟩
  · simp [genBoundary, String.length, hexChars_length]
  · intro c hc
    apply hexChars_mem_lowerHex 32 n
    simpa [genBoundary, String.toList] using hc
  · intro h
    exact hnm (hexChars_inj 32 n m hn hm2 (by
      have := congrArg String.data h
      simpa [genBoundary] using this))
  · simp only [upload_dfiq_archive]
    rw [do_request_ok_step tp f st tr "POST"
      (st.urlRoot ++ "/api/v2/dfiq/from_archive") none
      (some (multipartBody (genBoundary n) data))
      (some [("Content-Type", multipartContentType (genBoundary n))]) 3 none
      rfl rfl (by rw [htp]; exact hstatus)]
    dsimp only
    simp [mkAttempt, effUrl, listTruthy, strTruthy, multipartBody_isEmpty]

/-- Witness for C9: invocation indices 0 and 1 give well-formed, distinct
boundaries, and the attempt against a succeeding transport carries the
generated header and body. -/
theorem upload_dfiq_archive_multipart_header_witness :
    (genBoundary 0).length = 32
    ∧ (∀ c ∈ (genBoundary 0).toList, isLowerHex c = true)
    ∧ multipartContentType (genBoundary 0)
        = "multipart/form-data; boundary=" ++ genBoundary 0
    ∧ genBoundary 0 ≠ genBoundary 1
    ∧ (upload_dfiq_archive tpOkEmpty 1 stFresh Trace.empty 0 "zipdata").2.2.attempts
        = Trace.empty.attempts ++
          [{ method := "POST",
             url := stFresh.urlRoot ++ "/api/v2/dfiq/from_archive",
             jsonData := none,
             body := some (multipartBody (genBoundary 0) "zipdata"),
             headers := some [("Content-Type",
               multipartContentType (genBoundary 0))],
             session := stFresh.client }] :=
  upload_dfiq_archive_multipart_header 0 1 (by norm_num) (by norm_num)
    (by decide) tpOkEmpty (respOk (Json.obj [])) (fun k a => rfl)
    (by norm_num [respOk]) stFresh Trace.empty "zipdata" 1 (by omega)

/-- Claim C10: presence of json_data, body and headers is tested by
truthiness, not by the argument being supplied.  An empty json dict
together with a nonempty binary body raises no usage error and proceeds
to the transport with the json keyword omitted and the body kept; an
empty json dict, an empty body, or an empty headers dict supplied alone
is silently omitted from the outgoing attempt. -/
theorem do_request_truthiness_semantics
    (tp : Tp) (r0 : HttpResponse) (htp : ∀ n a, tp n a = r0)
    (hstatus : r0.status < 400) (st : ClientState) (tr : Trace)
    (method url : String)
    (hm : (method == "POST" || method == "PATCH" || method == "GET") = true)
    (b : String) (hb : b.isEmpty = false)
    (headers : Option (List (String × String)))
    (jsonData : Option (List (String × Json)))
    (body2 : Option String)
    (params : Option (List (String × String)))
    (fuel : Nat) (hf : 1 ≤ fuel) :
    do_request tp fuel st tr method url (some []) (some b) headers 3 params
      = (some (.ok r0.content), st,
         { tr with attempts := tr.attempts ++
             [{ method := method, url := effUrl url params, jsonData := none,
                body := some b,
                headers := if listTruthy headers then headers else none,
                session := st.client }] })
    ∧ (mkAttempt st method url (some []) body2 headers params).jsonData = none
    ∧ (mkAttempt st method url jsonData (some "") headers params).body = none
    ∧ (mkAttempt st method url jsonData body2 (some []) params).headers
        = none := by
  obtain ⟨f, rfl⟩ : ∃ f, fuel = f + 1 := ⟨fuel - 1, by omega⟩
  refine ⟨?_, rfl, rfl, rfl⟩
  rw [do_request_ok_step tp f st tr method url (some []) (some b) headers 3
    params rfl hm (by rw [htp]; exact hstatus)]
  rw [htp]
  simp [mkAttempt, strTruthy, listTruthy, hb]

/-- Witness for C10: an empty json dict plus the nonempty body "binary"
reaches the transport with the json keyword dropped, and empty dict or
byte-string arguments are omitted from the attempt. -/
theorem do_request_truthiness_semantics_witness :
    do_request tpOkEmpty 1 stFresh Trace.empty "POST" "http://yeti/api/v2/x"
        (some []) (some "binary") none 3 none
      = (some (.ok (Json.obj [])), stFresh,
         { Trace.empty with attempts := Trace.empty.attempts ++
             [{ method := "POST", url := effUrl "http://yeti/api/v2/x" none,
                jsonData := none,
                body := some "binary",
                headers := if listTruthy (none : Option (List (String × String)))
                  then none else none,
                session := stFresh.client }] })
    ∧ (mkAttempt stFresh "POST" "http://yeti/api/v2/x" (some []) none none
        none).jsonData = none
    ∧ (mkAttempt stFresh "POST" "http://yeti/api/v2/x" none (some "") none
        none).body = none
    ∧ (mkAttempt stFresh "POST" "http://yeti/api/v2/x" none none (some [])
        none).headers = none :=
  do_request_truthiness_semantics tpOkEmpty (respOk (Json.obj []))
    (fun n a => rfl) (by norm_num [respOk]) stFresh Trace.empty "POST"
    "http://yeti/api/v2/x" rfl "binary" rfl none none none none 1 (by omega)

/-- Against a permanently-401 transport, once "auth_api_key" is the
recorded auth method and a truthy key is stored, the three mutually
recursive methods exhaust any amount of fuel: do_request (with a nonzero
budget), refresh_auth and auth_api_key all diverge.  This is the
unbounded refresh loop: each refresh re-enters do_request with a fresh
default budget, so no measure decreases. -/
theorem pipeline_diverges_with_recorded_auth (tp : Tp)
    (htp : ∀ n a, (tp n a).status = 401) :
    ∀ fuel : Nat,
      (∀ st tr method url jsonData body headers retries params,
        st.authFunction = "auth_api_key" → strTruthy st.apikey = true →
        (listTruthy jsonData && strTruthy body) = false →
        (method == "POST" || method == "PATCH" || method == "GET") = true →
        retries ≠ 0 →
        (do_request tp fuel st tr method url jsonData body headers retries
          params).1 = none)
      ∧ (∀ st tr, st.authFunction = "auth_api_key" →
          strTruthy st.apikey = true → (refresh_auth tp fuel st tr).1 = none)
      ∧ (∀ st tr, st.authFunction = "auth_api_key" →
          strTruthy st.apikey = true →
          (auth_api_key tp fuel st tr none).1 = none) := by
  intro fuel
  induction fuel with
  | zero =>
    refine ⟨?_, ?_, ?_⟩
    · intro st tr method url jsonData body headers retries params _ _ _ _ _
      rfl
    · intro st tr _ _
      rfl
    · intro st tr _ _
      rfl
  | succ f ih =>
    obtain ⟨ihP, ihQ, ihR⟩ := ih
    refine ⟨?_, ?_, ?_⟩
    · intro st tr method url jsonData body headers retries params hauth hkey
        hjb hm hr
      rw [do_request_retry_step tp f st tr method url jsonData body headers
        retries params hjb hm (htp _ _) hr]
      have hq := ihQ st
        { tr with attempts := tr.attempts ++
            [mkAttempt st method url jsonData body headers params] }
        hauth hkey
      have hqe : refresh_auth tp f st
          { tr with attempts := tr.attempts ++
              [mkAttempt st method url jsonData body headers params] }
          = (none,
             (refresh_auth tp f st
               { tr with attempts := tr.attempts ++
                   [mkAttempt st method url jsonData body headers params] }).2.1,
             (refresh_auth tp f st
               { tr with attempts := tr.attempts ++
                   [mkAttempt st method url jsonData body headers params] }).2.2) := by
        rw [← hq]
      rw [hqe]
    · intro st tr hauth hkey
      simp only [refresh_auth]
      rw [hauth]
      rw [if_neg (by decide : ¬ (("auth_api_key".isEmpty) = true))]
      rw [if_pos (by decide : (("auth_api_key" == "auth_api_key")) = true)]
      exact ihR st _ hauth hkey
    · intro st tr hauth hkey
      simp only [auth_api_key, hkey, Bool.not_true]
      rw [if_neg (by decide : ¬ (false = true))]
      have hp := ihP st tr "POST" (st.urlRoot ++ API_TOKEN_ENDPOINT) none none
        (some [("x-yeti-apikey", st.apikey.getD "")]) 3 none hauth hkey rfl
        rfl (by norm_num)
      have hpe : do_request tp f st tr "POST"
          (st.urlRoot ++ API_TOKEN_ENDPOINT) none none
          (some [("x-yeti-apikey", st.apikey.getD "")]) 3 none
          = (none,
             (do_request tp f st tr "POST" (st.urlRoot ++ API_TOKEN_ENDPOINT)
               none none (some [("x-yeti-apikey", st.apikey.getD "")]) 3
               none).2.1,
             (do_request tp f st tr "POST" (st.urlRoot ++ API_TOKEN_ENDPOINT)
               none none (some [("x-yeti-apikey", st.apikey.getD "")]) 3
               none).2.2) := by
        rw [← hp]
      rw [hpe]

/-- Corollary of the divergence lemma at C1's counterexample input: no
amount of fuel makes the authenticated-state dispatch return, so the code
never raises the terminal AuthError there. -/
theorem do_request_never_returns_after_auth (fuel : Nat) :
    (do_request tp401c fuel stAuthd Trace.empty "GET"
      "http://yeti/api/v2/observables/" none none none 2 none).1 = none :=
  (pipeline_diverges_with_recorded_auth tp401c (fun n a => rfl) fuel).1
    stAuthd Trace.empty "GET" "http://yeti/api/v2/observables/" none none
    none 2 none rfl rfl rfl rfl (by norm_num)

end Yeti
